import Mathlib

/-
Shallow embedding of the subscription / payment / entitlement core of the
Ai-content-generator repository.

Sources embedded:
  - backend/middleware/auth.js        : checkSubscription (entitlement guard)
  - backend/models/User.js            : the user document (subscription, payment,
                                        usage fields and their schema defaults)
  - backend/routes/payments.js        : plans, create-order, capture-order,
                                        webhook, subscription routes and the
                                        helpers handlePaymentCompleted,
                                        handlePaymentDeniedOrRefunded,
                                        handleCompletedPayment
  - backend/routes/content.js         : generate and test-gemini routes
  - backend/utils/paypalApi.js        : verifyWebhookSignature

Modelling conventions:
  - Dates are Int milliseconds since the epoch; "new Date()" is the parameter
    `now`.  JS "endDate.setDate(getDate() + 30)" is modelled as now + 30 days in
    milliseconds; no stated property depends on calendar-boundary effects.
  - The Mongo store is a list of user documents; findByIdAndUpdate with a
    dotted-path patch is a map over the list patching the matching document.
  - External effects (the PayPal capture call, signature verification, the
    Gemini generation call, the DB connection flag) are passed in as explicit
    parameters, so every route is a pure function from store and inputs to
    (store, response).
  - JS falsy checks on request strings ("if (!orderId)", "if (!prompt)") treat
    both an absent field and the empty string as missing; the embedding keeps
    both cases.
  - Mongoose behaviour that the code relies on: a dotted-path update with an
    undefined value drops that key (field left unchanged); assigning a whole
    object to the `subscription` subdocument replaces it, with schema defaults
    (isActive = false) for fields the object omits and nothing at all for keys
    the schema does not declare.
-/

namespace AiContentGen

/-- Milliseconds in one day, the constant used by the JS date arithmetic. -/
def msPerDay : Int := 86400000

/-- Thirty days added in milliseconds; models "endDate.setDate(getDate() + 30)". -/
def addDays (t d : Int) : Int := t + d * msPerDay

/-- Math.ceil of a / b for positive b, as used for daysRemaining. -/
def jsMathCeilDiv (a b : Int) : Int := -(Int.fdiv (-a) b)

/-- JS "value || fallback" on an optional request string: the empty string is
falsy and also takes the fallback. -/
def jsOrDefault (s : Option String) (d : String) : String :=
  match s with
  | some v => if v = "" then d else v
  | none => d

/-- The embedded subscription subdocument of the User schema.  The schema
declares status, planId, customerId, startDate, endDate and isActive; the
payment routes additionally read and write `orderId` and read `pendingPlanId`
through this subdocument, so both are carried here as optional fields (the
schema itself never declares or writes them). -/
structure Subscription where
  status : String
  planId : Option String
  customerId : Option String
  orderId : Option String
  pendingPlanId : Option String
  startDate : Option Int
  endDate : Option Int
  isActive : Bool
deriving DecidableEq, Repr

/-- The embedded payment subdocument: the transient pending-payment slot
written by create-order.  (lastPaymentDate and lastPaymentAmount exist in the
schema but no route reads or writes them, so they are omitted.) -/
structure Payment where
  pendingOrderId : Option String
  pendingPlanId : Option String
deriving DecidableEq, Repr

/-- A user document restricted to the fields the subscription, payment and
content routes touch.  Identity fields (googleId, email, name, avatar) are
never read by this core and are omitted. -/
structure User where
  id : String
  subscription : Subscription
  payment : Payment
  usageLimit : Nat
  usageCount : Nat
deriving DecidableEq, Repr

/-- User.findById on the store: first document with the given id. -/
def findById : List User → String → Option User
  | [], _ => none
  | u :: rest, uid => if u.id = uid then some u else findById rest uid

/-- User.findOne on the dotted path "subscription.orderId". -/
def findOneBySubscriptionOrderId : List User → String → Option User
  | [], _ => none
  | u :: rest, oid =>
      if u.subscription.orderId = some oid then some u
      else findOneBySubscriptionOrderId rest oid

/-- User.findByIdAndUpdate: patch every document whose id matches. -/
def updateById (st : List User) (uid : String) (f : User → User) : List User :=
  st.map fun u => if u.id = uid then f u else u

/-- Date-valued field present and strictly before `now`; models
"endDate && new Date(endDate) < new Date()". -/
def dateBefore (d : Option Int) (now : Int) : Prop :=
  match d with
  | some t => t < now
  | none => False

instance (d : Option Int) (now : Int) : Decidable (dateBefore d now) := by
  unfold dateBefore
  cases d <;> infer_instance

/-- Result of the checkSubscription middleware: either the request proceeds to
the handler, or it is answered 403 with one of the two rejection bodies. -/
inductive GuardResult
  | allow
  | denyQuotaExceeded
  | denySubscriptionExpired
deriving DecidableEq, Repr

/-- checkSubscription from backend/middleware/auth.js, on an authenticated
user (the auth middleware has already loaded the document).  The free-tier
quota gate runs first; the paid-tier expiry check then lazily downgrades by
patching only the dotted path "subscription.status". -/
def checkSubscription (now : Int) (st : List User) (user : User) :
    List User × GuardResult :=
  if user.subscription.status = "free" ∧ user.usageLimit ≤ user.usageCount then
    (st, .denyQuotaExceeded)
  else if (user.subscription.status = "basic" ∨ user.subscription.status = "premium")
      ∧ dateBefore user.subscription.endDate now then
    (updateById st user.id fun u =>
       { u with subscription := { u.subscription with status := "free" } },
     .denySubscriptionExpired)
  else
    (st, .allow)

/-- One plan of the hardcoded catalog served by GET /api/payments/plans.
Prices are kept in cents (9.99 USD is 999) to stay in exact arithmetic; the
feature strings are presentation only and are omitted. -/
structure Plan where
  id : String
  name : String
  priceCents : Nat
  usageLimit : Nat
deriving DecidableEq, Repr

/-- The hardcoded plan list of GET /api/payments/plans. -/
def plans : List Plan :=
  [ { id := "free", name := "Free", priceCents := 0, usageLimit := 5 },
    { id := "basic", name := "Basic", priceCents := 999, usageLimit := 50 },
    { id := "premium", name := "Premium", priceCents := 1999, usageLimit := 9999 } ]

/-- Quota the Plan Catalog assigns to a plan id, none for unknown ids. -/
def planUsageLimit (pid : String) : Option Nat :=
  (plans.find? fun p => p.id == pid).map Plan.usageLimit

/-- A PayPal order as returned by the gateway createOrder call; only the id is
consumed by the route. -/
structure PayPalOrder where
  id : String
deriving DecidableEq, Repr

/-- Responses of POST /api/payments/create-order. -/
inductive CreateOrderResp
  | unauthorized
  | invalidPlan
  | gatewayError
  | created (orderId : String)
deriving DecidableEq, Repr

/-- POST /api/payments/create-order.  The gateway call is passed in as the
`order` parameter (none models a falsy / id-less gateway result).  On success
the order id and plan id are staged in the payment subdocument. -/
def createOrderRoute (st : List User) (userId : String) (planId : Option String)
    (order : Option PayPalOrder) : List User × CreateOrderResp :=
  match findById st userId with
  | none => (st, .unauthorized)
  | some _ =>
    match planId with
    | none => (st, .invalidPlan)
    | some pid =>
      if pid ≠ "basic" ∧ pid ≠ "premium" then (st, .invalidPlan)
      else
        match order with
        | none => (st, .gatewayError)
        | some o =>
          if o.id = "" then (st, .gatewayError)
          else
            (updateById st userId fun u =>
               { u with payment := { pendingOrderId := some o.id,
                                     pendingPlanId := some pid } },
             .created o.id)

/-- Result of the gateway captureOrder call; only the status string is read. -/
structure CaptureData where
  status : String
deriving DecidableEq, Repr

/-- Responses of POST /api/payments/capture-order. -/
inductive CaptureResp
  | orderIdRequired
  | userNotFound
  | orderMismatch
  | completed (planId : Option String)
  | paymentNotCompleted (status : String)
deriving DecidableEq, Repr

/-- handleCompletedPayment from the payments routes: the capture-path plan
application.  It is a dotted-path patch, so subscription fields it does not
mention (customerId, orderId, pendingPlanId) are left in place.  The JS passes
planId straight through from payment.pendingPlanId; when that is undefined
Mongoose drops the "subscription.status" / "subscription.planId" keys from the
patch, leaving those two fields unchanged, which the getD / orElse encode. -/
def handleCompletedPayment (now : Int) (planId : Option String) (u : User) : User :=
  let usageLimit : Nat :=
    if planId = some "basic" then 50
    else if planId = some "premium" then 200
    else 10
  { u with
    subscription := { u.subscription with
      status := planId.getD u.subscription.status
      planId := planId.orElse fun _ => u.subscription.planId
      startDate := some now
      endDate := some (addDays now 30)
      isActive := true }
    payment := { u.payment with pendingOrderId := none, pendingPlanId := none }
    usageLimit := usageLimit
    usageCount := 0 }

/-- POST /api/payments/capture-order.  The JS "if (!orderId)" is falsy for
both an absent body field and the empty string, hence the two orderIdRequired
branches.  The gateway capture call is the `capture` parameter and is only
invoked after the pending-order check passes. -/
def captureOrderRoute (now : Int) (st : List User) (userId : String)
    (orderId : Option String) (capture : String → CaptureData) :
    List User × CaptureResp :=
  match orderId with
  | none => (st, .orderIdRequired)
  | some oid =>
    if oid = "" then (st, .orderIdRequired)
    else
      match findById st userId with
      | none => (st, .userNotFound)
      | some user =>
        if user.payment.pendingOrderId ≠ some oid then (st, .orderMismatch)
        else
          let captureData := capture oid
          if captureData.status = "COMPLETED" then
            let planId := user.payment.pendingPlanId
            (updateById st userId (handleCompletedPayment now planId),
             .completed planId)
          else (st, .paymentNotCompleted captureData.status)

/-- A PayPal webhook event flattened to the three fields the handlers read:
event_type, resource.supplementary_data.related_ids.order_id and
resource.payer.payer_id. -/
structure WebhookEvent where
  eventType : String
  orderId : String
  payerId : String
deriving DecidableEq, Repr

/-- verifyWebhookSignature from backend/utils/paypalApi.js.  The outcome of
the provider verification call is passed in: an error (the call threw) or the
verification_status string of its response.  The try/catch turns every thrown
error into false; a non-SUCCESS status is false as well. -/
def verifyWebhookSignature (result : Except String String) : Bool :=
  match result with
  | .error _ => false
  | .ok vstatus => vstatus == "SUCCESS"

/-- handlePaymentCompleted, the webhook-path reconciler.  It looks the user up
by "subscription.orderId", and only acts when the subscription is still free.
Note two literal source facts: the plan id is read from
user.subscription.pendingPlanId (a key the schema does not declare and no code
path ever writes) with fallback "basic", and the update replaces the whole
subscription subdocument, so isActive falls back to its schema default false
and the undeclared pendingPlanId key disappears. -/
def handlePaymentCompleted (now : Int) (st : List User) (event : WebhookEvent) :
    List User :=
  match findOneBySubscriptionOrderId st event.orderId with
  | none => st
  | some user =>
    if user.subscription.status = "free" then
      let planId := user.subscription.pendingPlanId.getD "basic"
      let usageLimit : Nat := if planId = "basic" then 50 else 9999
      updateById st user.id fun u =>
        { u with
          subscription := {
            status := planId
            planId := some planId
            customerId := some event.payerId
            orderId := some event.orderId
            pendingPlanId := none
            startDate := some now
            endDate := some (addDays now 30)
            isActive := false }
          usageLimit := usageLimit
          usageCount := 0 }
    else st

/-- handlePaymentDeniedOrRefunded, the webhook-path revert to the free plan.
The whole subscription subdocument is replaced (customerId carried over from
the fetched document, orderId and the dates nulled, isActive back to its
schema default false) and usageLimit is reset to 5; usageCount and the payment
subdocument are not touched. -/
def handlePaymentDeniedOrRefunded (st : List User) (event : WebhookEvent) :
    List User :=
  match findOneBySubscriptionOrderId st event.orderId with
  | none => st
  | some user =>
    updateById st user.id fun u =>
      { u with
        subscription := {
          status := "free"
          planId := some "free"
          customerId := user.subscription.customerId
          orderId := none
          pendingPlanId := none
          startDate := none
          endDate := none
          isActive := false }
        usageLimit := 5 }

/-- Responses of POST /api/payments/webhook: 401 for a signature that does not
verify, 200 otherwise (including unhandled event types). -/
inductive WebhookResp
  | rejected
  | received
deriving DecidableEq, Repr

/-- POST /api/payments/webhook: verify the signature first and reject with no
side effect on failure, then dispatch on the event type. -/
def webhookRoute (now : Int) (st : List User) (verifyResult : Except String String)
    (event : WebhookEvent) : List User × WebhookResp :=
  if verifyWebhookSignature verifyResult = false then (st, .rejected)
  else if event.eventType = "PAYMENT.CAPTURE.COMPLETED" then
    (handlePaymentCompleted now st event, .received)
  else if event.eventType = "PAYMENT.CAPTURE.DENIED"
      ∨ event.eventType = "PAYMENT.CAPTURE.REFUNDED" then
    (handlePaymentDeniedOrRefunded st event, .received)
  else (st, .received)

/-- The JSON body GET /api/payments/subscription answers with.  The
floating-point usagePercentage field is presentation only and is omitted;
daysRemaining is none when the response does not include the field. -/
structure SubscriptionView where
  status : String
  planId : Option String
  startDate : Option Int
  endDate : Option Int
  isActive : Bool
  daysRemaining : Option Int
  usageLimit : Nat
  usageCount : Nat
deriving DecidableEq, Repr

/-- Responses of GET /api/payments/subscription. -/
inductive SubResp
  | userNotFound
  | ok (view : SubscriptionView)
deriving DecidableEq, Repr

/-- The non-expired response body of GET /api/payments/subscription. -/
def viewOf (now : Int) (user : User) : SubscriptionView :=
  { status := user.subscription.status
    planId := user.subscription.planId
    startDate := user.subscription.startDate
    endDate := user.subscription.endDate
    isActive := user.subscription.status != "free"
    daysRemaining := user.subscription.endDate.map fun ed =>
      jsMathCeilDiv (ed - now) msPerDay
    usageLimit := user.usageLimit
    usageCount := user.usageCount }

/-- GET /api/payments/subscription.  When endDate is present and strictly in
the past (whatever the status), the subscription subdocument is replaced by
the free-plan record and usageLimit reset to 5 before the free-plan body is
returned; the body hardcodes isActive true and carries the old usageCount. -/
def subscriptionRoute (now : Int) (st : List User) (userId : String) :
    List User × SubResp :=
  match findById st userId with
  | none => (st, .userNotFound)
  | some user =>
    if dateBefore user.subscription.endDate now then
      (updateById st userId fun u =>
         { u with
           subscription := {
             status := "free"
             planId := some "free"
             customerId := user.subscription.customerId
             orderId := none
             pendingPlanId := none
             startDate := none
             endDate := none
             isActive := false }
           usageLimit := 5 },
       .ok { status := "free", planId := some "free", startDate := none,
             endDate := none, isActive := true, daysRemaining := none,
             usageLimit := 5, usageCount := user.usageCount })
    else
      (st, .ok (viewOf now user))

/-- A saved content document (createdAt omitted; it is never read back by the
routes under proof). -/
structure Content where
  user : String
  prompt : String
  generatedContent : String
  contentType : String
deriving DecidableEq, Repr

/-- Responses of POST /api/content/generate. -/
inductive GenerateResp
  | userNotFound
  | limitReached
  | subscriptionExpired
  | promptRequired
  | dbError
  | generationError (msg : String)
  | ok (content : Content)
deriving DecidableEq, Repr

/-- POST /api/content/generate with its [auth, checkSubscription] middleware
chain.  The Gemini call together with the content save share one try block in
the source; their joint outcome is the `genResult` parameter.  Only after a
successful generation and save is usageCount incremented, via a $inc patch. -/
def generateRoute (now : Int) (st : List User) (contents : List Content)
    (userId : String) (prompt contentType : Option String) (dbConnected : Bool)
    (genResult : Except String String) :
    List User × List Content × GenerateResp :=
  match findById st userId with
  | none => (st, contents, .userNotFound)
  | some user =>
    match checkSubscription now st user with
    | (st1, .denyQuotaExceeded) => (st1, contents, .limitReached)
    | (st1, .denySubscriptionExpired) => (st1, contents, .subscriptionExpired)
    | (st1, .allow) =>
      match prompt with
      | none => (st1, contents, .promptRequired)
      | some p =>
        if p = "" then (st1, contents, .promptRequired)
        else if dbConnected = false then (st1, contents, .dbError)
        else
          match genResult with
          | .error msg => (st1, contents, .generationError msg)
          | .ok text =>
            let newContent : Content :=
              { user := userId, prompt := p, generatedContent := text,
                contentType := jsOrDefault contentType "other" }
            (updateById st1 userId fun u => { u with usageCount := u.usageCount + 1 },
             contents ++ [newContent],
             .ok newContent)

/-- Responses of POST /api/content/test-gemini. -/
inductive TestGeminiResp
  | userNotFound
  | promptRequired
  | generationError (msg : String)
  | ok (generatedContent : String) (contentType : String)
deriving DecidableEq, Repr

/-- POST /api/content/test-gemini: auth only (no checkSubscription in the
middleware chain), generation is returned without saving a document and
without touching any user field. -/
def testGeminiRoute (st : List User) (contents : List Content) (userId : String)
    (prompt contentType : Option String) (genResult : Except String String) :
    List User × List Content × TestGeminiResp :=
  match findById st userId with
  | none => (st, contents, .userNotFound)
  | some _ =>
    match prompt with
    | none => (st, contents, .promptRequired)
    | some p =>
      if p = "" then (st, contents, .promptRequired)
      else
        match genResult with
        | .error msg => (st, contents, .generationError msg)
        | .ok text => (st, contents, .ok text (jsOrDefault contentType "other"))

/-! Concrete fixture documents used by witnesses and counterexamples. -/

/-- Free user whose pending order slot holds order "A1". -/
def pendingA1User : User :=
  { id := "u1",
    subscription := { status := "free", planId := none, customerId := none,
                      orderId := none, pendingPlanId := none, startDate := none,
                      endDate := none, isActive := false },
    payment := { pendingOrderId := some "A1", pendingPlanId := some "basic" },
    usageLimit := 5, usageCount := 0 }

/-- Free user whose pending order slot holds order "O2" for the basic plan. -/
def pendingO2User : User :=
  { id := "u2",
    subscription := { status := "free", planId := none, customerId := none,
                      orderId := none, pendingPlanId := none, startDate := none,
                      endDate := none, isActive := false },
    payment := { pendingOrderId := some "O2", pendingPlanId := some "basic" },
    usageLimit := 5, usageCount := 3 }

/-- Premium user whose subscription ended one day before time 0. -/
def expiredPremiumUser : User :=
  { id := "u4",
    subscription := { status := "premium", planId := some "premium",
                      customerId := some "PAYER4", orderId := none,
                      pendingPlanId := none, startDate := some (-2592000000),
                      endDate := some (-86400000), isActive := true },
    payment := { pendingOrderId := none, pendingPlanId := none },
    usageLimit := 9999, usageCount := 7 }

/-- Stale premium user (endDate in the past) with the premium quota 9999. -/
def stalePremiumUser : User :=
  { id := "u5",
    subscription := { status := "premium", planId := some "premium",
                      customerId := some "PAYER5", orderId := none,
                      pendingPlanId := none, startDate := some (-100),
                      endDate := some (-1), isActive := true },
    payment := { pendingOrderId := none, pendingPlanId := none },
    usageLimit := 9999, usageCount := 7 }

/-- Free user who has used all 5 of the free-tier quota. -/
def freeUserAtLimit : User :=
  { id := "u6",
    subscription := { status := "free", planId := none, customerId := none,
                      orderId := none, pendingPlanId := none, startDate := none,
                      endDate := none, isActive := false },
    payment := { pendingOrderId := none, pendingPlanId := none },
    usageLimit := 5, usageCount := 5 }

/-- Free user with one generation left of the free-tier quota. -/
def freeUserUnderLimit : User :=
  { id := "u6b",
    subscription := { status := "free", planId := none, customerId := none,
                      orderId := none, pendingPlanId := none, startDate := none,
                      endDate := none, isActive := false },
    payment := { pendingOrderId := none, pendingPlanId := none },
    usageLimit := 5, usageCount := 4 }

/-- Fresh free user before any payment activity. -/
def freshFreeUser7 : User :=
  { id := "u7",
    subscription := { status := "free", planId := none, customerId := none,
                      orderId := none, pendingPlanId := none, startDate := none,
                      endDate := none, isActive := false },
    payment := { pendingOrderId := none, pendingPlanId := none },
    usageLimit := 5, usageCount := 0 }

/-- The store after freshFreeUser7 creates a premium order ORD7: the order id
and plan id sit in the payment subdocument. -/
def afterCreateOrder7 : List User :=
  (createOrderRoute [freshFreeUser7] "u7" (some "premium") (some { id := "ORD7" })).1

/-- Free user who (unlike anything the capture flow produces) carries ORD7 in
subscription.orderId, with the premium plan recorded in the pending-payment
slot payment.pendingPlanId and no subscription.pendingPlanId. -/
def linkedOrderUser7 : User :=
  { id := "u7b",
    subscription := { status := "free", planId := none, customerId := none,
                      orderId := some "ORD7", pendingPlanId := none,
                      startDate := none, endDate := none, isActive := false },
    payment := { pendingOrderId := some "ORD7", pendingPlanId := some "premium" },
    usageLimit := 5, usageCount := 2 }

/-- Free user whose pending-payment slot holds order "O8" with an unknown
plan id. -/
def pendingBogusUser : User :=
  { id := "u8",
    subscription := { status := "free", planId := none, customerId := none,
                      orderId := none, pendingPlanId := none, startDate := none,
                      endDate := none, isActive := false },
    payment := { pendingOrderId := some "O8", pendingPlanId := some "bogus" },
    usageLimit := 5, usageCount := 0 }

/-- Active premium user whose subscription carries order "O9" and whose
pending-payment slot still holds a later order "O2". -/
def refundedPremiumUser : User :=
  { id := "u9",
    subscription := { status := "premium", planId := some "premium",
                      customerId := some "PAYER9", orderId := some "O9",
                      pendingPlanId := none, startDate := some 0,
                      endDate := some 2592000000, isActive := true },
    payment := { pendingOrderId := some "O2", pendingPlanId := some "basic" },
    usageLimit := 9999, usageCount := 3 }

/-- Free user over the free-tier quota, for the content routes. -/
def genOverUser : User :=
  { id := "u10",
    subscription := { status := "free", planId := none, customerId := none,
                      orderId := none, pendingPlanId := none, startDate := none,
                      endDate := none, isActive := false },
    payment := { pendingOrderId := none, pendingPlanId := none },
    usageLimit := 5, usageCount := 9 }

/-- Free user under the free-tier quota, for the content routes. -/
def genUnderUser : User :=
  { id := "u10b",
    subscription := { status := "free", planId := none, customerId := none,
                      orderId := none, pendingPlanId := none, startDate := none,
                      endDate := none, isActive := false },
    payment := { pendingOrderId := none, pendingPlanId := none },
    usageLimit := 5, usageCount := 4 }

/-! Helper lemmas shared by several claims. -/

/-- Looking a user up after an id-preserving patch finds the patched document. -/
theorem findById_updateById (st : List User) (uid : String) (f : User → User)
    (hf : ∀ u, (f u).id = u.id) :
    findById (updateById st uid f) uid = (findById st uid).map f := by
  induction st with
  | nil => rfl
  | cons u rest ih =>
    by_cases h : u.id = uid
    · simp [updateById, findById, h, hf u]
    · simp only [updateById, List.map_cons] at *
      rw [if_neg h]
      unfold findById
      rw [if_neg h, if_neg h]
      exact ih

/-- When the guard lets a request through, it has not touched the store:
only the expired branch writes, and it answers with a denial. -/
theorem checkSubscription_allow_of (now : Int) (st : List User) (user : User)
    (h : (checkSubscription now st user).2 = .allow) :
    checkSubscription now st user = (st, .allow) := by
  unfold checkSubscription at h ⊢
  by_cases h1 : user.subscription.status = "free" ∧ user.usageLimit ≤ user.usageCount
  · rw [if_pos h1] at h
    simp at h
  · rw [if_neg h1] at h ⊢
    by_cases h2 : (user.subscription.status = "basic" ∨ user.subscription.status = "premium")
        ∧ dateBefore user.subscription.endDate now
    · rw [if_pos h2] at h
      simp at h
    · rw [if_neg h2] at h ⊢

/-! C1: order binding on POST /api/payments/capture-order. -/

/-- C1 counterexample: with pending order "A1", passing the order id "" (which
differs from "A1") yields the "Order ID is required" validation rejection, not
the order-mismatch StateConflict rejection the claim states; the store is
still left unchanged and the capture result is never consulted. -/
theorem captureOrder_empty_id_is_validation_rejection :
    captureOrderRoute 0 [pendingA1User] "u1" (some "")
        (fun _ => { status := "COMPLETED" }) =
      ([pendingA1User], CaptureResp.orderIdRequired)
    ∧ pendingA1User.payment.pendingOrderId = some "A1"
    ∧ some "A1" ≠ some ""
    ∧ CaptureResp.orderIdRequired ≠ CaptureResp.orderMismatch := by
  decide

/-- C1 (amended): if the order id passed to capture-order does not equal the
stored pending order id, the call rejects and the store is returned unchanged,
with the gateway capture never attempted (the outcome is the same for every
capture function); the rejection is the order-mismatch StateConflict response
whenever the passed id is non-empty, and the "Order ID is required" validation
response for the empty id (JS falsy). -/
theorem captureOrder_mismatch_rejects (now : Int) (st : List User)
    (uid oid : String) (user : User) (capture : String → CaptureData)
    (hu : findById st uid = some user)
    (hm : user.payment.pendingOrderId ≠ some oid) :
    captureOrderRoute now st uid (some oid) capture =
      (st, if oid = "" then CaptureResp.orderIdRequired
           else CaptureResp.orderMismatch) := by
  by_cases h : oid = ""
  · simp [captureOrderRoute, h]
  · simp [captureOrderRoute, h, hu, hm]

/-- C1 witness: concrete mismatching non-empty order id. -/
theorem captureOrder_mismatch_rejects_witness :
    captureOrderRoute 0 [pendingA1User] "u1" (some "ZZZ")
        (fun _ => { status := "COMPLETED" }) =
      ([pendingA1User], CaptureResp.orderMismatch) := by
  have h := captureOrder_mismatch_rejects 0 [pendingA1User] "u1" "ZZZ" pendingA1User
    (fun _ => { status := "COMPLETED" }) (by decide) (by decide)
  rw [if_neg (by decide : ¬("ZZZ" : String) = "")] at h
  exact h

/-! C2: idempotent capture — a second capture call with the already-applied
order id leaves the state of the first call untouched. -/

/-- C2: after a first capture-order call completes and applies the plan (which
clears the pending order slot), a second call with the same order id rejects
with order-mismatch and returns the store of the first call unchanged — no
second quota, usage-count or date reset, for any capture outcome. -/
theorem captureOrder_second_call_no_mutation (now now2 : Int) (st : List User)
    (uid oid : String) (user : User) (capture capture2 : String → CaptureData)
    (hne : oid ≠ "")
    (hu : findById st uid = some user)
    (hp : user.payment.pendingOrderId = some oid)
    (hc : (capture oid).status = "COMPLETED") :
    captureOrderRoute now2 (captureOrderRoute now st uid (some oid) capture).1
        uid (some oid) capture2 =
      ((captureOrderRoute now st uid (some oid) capture).1,
       CaptureResp.orderMismatch) := by
  have hfirst : captureOrderRoute now st uid (some oid) capture =
      (updateById st uid (handleCompletedPayment now user.payment.pendingPlanId),
       .completed user.payment.pendingPlanId) := by
    simp [captureOrderRoute, hne, hu, hp, hc]
  have hfind2 : findById
      (updateById st uid (handleCompletedPayment now user.payment.pendingPlanId)) uid =
      some (handleCompletedPayment now user.payment.pendingPlanId user) := by
    rw [findById_updateById st uid
      (handleCompletedPayment now user.payment.pendingPlanId) (fun _ => rfl), hu]
    rfl
  rw [hfirst]
  simp [captureOrderRoute, hne, hfind2, handleCompletedPayment]

/-- C2 witness: concrete user, order "O2", first call completed, second call
rejected with the first-call store unchanged. -/
theorem captureOrder_second_call_no_mutation_witness :
    captureOrderRoute 1
        (captureOrderRoute 0 [pendingO2User] "u2" (some "O2")
          (fun _ => { status := "COMPLETED" })).1
        "u2" (some "O2") (fun _ => { status := "COMPLETED" }) =
      ((captureOrderRoute 0 [pendingO2User] "u2" (some "O2")
          (fun _ => { status := "COMPLETED" })).1,
       CaptureResp.orderMismatch) :=
  captureOrder_second_call_no_mutation 0 1 [pendingO2User] "u2" "O2" pendingO2User
    (fun _ => { status := "COMPLETED" }) (fun _ => { status := "COMPLETED" })
    (by decide) (by decide) (by decide) (by decide)

/-! C3: webhook signature rejection with no mutation; verifyWebhookSignature
total and false on every failure. -/

/-- C3: verifyWebhookSignature answers false — it never propagates an error —
both when the underlying provider verification call throws and when the call
succeeds with a verification_status other than SUCCESS; and whenever it
answers false, the webhook route returns the store completely unchanged with
the 401 rejection, for every event. -/
theorem webhook_rejects_without_mutation :
    (∀ e : String, verifyWebhookSignature (Except.error e) = false)
    ∧ (∀ s : String, s ≠ "SUCCESS" → verifyWebhookSignature (Except.ok s) = false)
    ∧ (∀ (now : Int) (st : List User) (vr : Except String String) (ev : WebhookEvent),
        verifyWebhookSignature vr = false →
        webhookRoute now st vr ev = (st, WebhookResp.rejected)) := by
  refine ⟨fun e => rfl, fun s hs => ?_, fun now st vr ev hv => ?_⟩
  · simpa [verifyWebhookSignature] using hs
  · simp [webhookRoute, hv]

/-- C3 witness: a thrown verification error and a tampered (non-SUCCESS)
verification on a concrete store are both rejected with the store unchanged. -/
theorem webhook_rejects_without_mutation_witness :
    verifyWebhookSignature (Except.error "boom") = false
    ∧ verifyWebhookSignature (Except.ok "FAILURE") = false
    ∧ webhookRoute 0 [pendingA1User] (Except.ok "FAILURE")
        { eventType := "PAYMENT.CAPTURE.COMPLETED", orderId := "A1",
          payerId := "P1" } =
      ([pendingA1User], WebhookResp.rejected) :=
  ⟨webhook_rejects_without_mutation.1 "boom",
   webhook_rejects_without_mutation.2.1 "FAILURE" (by decide),
   webhook_rejects_without_mutation.2.2 0 [pendingA1User] (Except.ok "FAILURE")
     { eventType := "PAYMENT.CAPTURE.COMPLETED", orderId := "A1", payerId := "P1" }
     (by decide)⟩

/-! C4: lazy expiry downgrade on GET /api/payments/subscription. -/

/-- C4: a premium user whose endDate is strictly in the past gets the free
view (status free, usageLimit equal to the free-tier quota 5) from the
subscription route, and the same request persists the downgrade (subscription
replaced by the free record, usageLimit 5) to the store; 5 is exactly the
quota the Plan Catalog assigns to the free plan. -/
theorem subscription_view_expiry_downgrade (now : Int) (st : List User)
    (uid : String) (user : User) (ed : Int)
    (hu : findById st uid = some user)
    (_hstatus : user.subscription.status = "premium")
    (hed : user.subscription.endDate = some ed)
    (hpast : ed < now) :
    subscriptionRoute now st uid =
      (updateById st uid fun u =>
        { u with
          subscription := { status := "free", planId := some "free",
                            customerId := user.subscription.customerId,
                            orderId := none, pendingPlanId := none,
                            startDate := none, endDate := none,
                            isActive := false },
          usageLimit := 5 },
       SubResp.ok { status := "free", planId := some "free", startDate := none,
                    endDate := none, isActive := true, daysRemaining := none,
                    usageLimit := 5, usageCount := user.usageCount })
    ∧ planUsageLimit "free" = some 5 := by
  have hdb : dateBefore user.subscription.endDate now := by
    rw [hed]; exact hpast
  exact ⟨by simp [subscriptionRoute, hu, hdb], by decide⟩

/-- C4 witness: a concrete premium user with endDate one day in the past. -/
theorem subscription_view_expiry_downgrade_witness :
    subscriptionRoute 0 [expiredPremiumUser] "u4" =
      ([{ expiredPremiumUser with
          subscription := { status := "free", planId := some "free",
                            customerId := some "PAYER4", orderId := none,
                            pendingPlanId := none, startDate := none,
                            endDate := none, isActive := false },
          usageLimit := 5 }],
       SubResp.ok { status := "free", planId := some "free", startDate := none,
                    endDate := none, isActive := true, daysRemaining := none,
                    usageLimit := 5, usageCount := 7 })
    ∧ planUsageLimit "free" = some 5 := by
  have h := subscription_view_expiry_downgrade 0 [expiredPremiumUser] "u4"
    expiredPremiumUser (-86400000) (by decide) (by decide) (by decide) (by decide)
  exact ⟨by rw [h.1]; decide, h.2⟩

/-! C5: the entitlement-guard lazy downgrade does not reset the quota. -/

/-- C5 counterexample: a stale premium user carries usageLimit 9999 into the
guard; after the guard has performed its lazy downgrade the stored document
has status free but usageLimit still 9999, not the free-tier quota 5 the claim
states. -/
theorem checkSubscription_downgrade_keeps_quota :
    (checkSubscription 0 [stalePremiumUser] stalePremiumUser).2 =
      GuardResult.denySubscriptionExpired
    ∧ (findById (checkSubscription 0 [stalePremiumUser] stalePremiumUser).1 "u5").map
        (fun u => (u.subscription.status, u.usageLimit)) = some ("free", 9999)
    ∧ (9999 : Nat) ≠ 5 := by
  decide

/-- C5 (amended): for every stale user (status basic or premium, endDate
present and before now) the guard lazily downgrades by patching only
subscription.status to free and denies with the expiry rejection; usageLimit
and usageCount are left untouched — the quota reset to the free tier happens
only on the subscription read path, not here. -/
theorem checkSubscription_stale_downgrade (now : Int) (st : List User)
    (user : User) (ed : Int)
    (hpaid : user.subscription.status = "basic" ∨ user.subscription.status = "premium")
    (hed : user.subscription.endDate = some ed)
    (hpast : ed < now) :
    checkSubscription now st user =
      (updateById st user.id fun u =>
        { u with subscription := { u.subscription with status := "free" } },
       GuardResult.denySubscriptionExpired) := by
  have hnotfree : ¬(user.subscription.status = "free" ∧ user.usageLimit ≤ user.usageCount) := by
    rcases hpaid with h | h <;> rw [h] <;> simp
  have hdb : dateBefore user.subscription.endDate now := by
    rw [hed]; exact hpast
  unfold checkSubscription
  rw [if_neg hnotfree, if_pos ⟨hpaid, hdb⟩]

/-- C5 witness: concrete stale premium user; only the status field changes. -/
theorem checkSubscription_stale_downgrade_witness :
    checkSubscription 0 [stalePremiumUser] stalePremiumUser =
      ([{ stalePremiumUser with
          subscription := { stalePremiumUser.subscription with status := "free" } }],
       GuardResult.denySubscriptionExpired) := by
  have h := checkSubscription_stale_downgrade 0 [stalePremiumUser] stalePremiumUser
    (-1) (Or.inr (by decide)) (by decide) (by decide)
  rw [h]
  decide

/-! C6: the free-tier quota gate of the entitlement guard. -/

/-- C6: for a free user the guard leaves the store untouched (in particular it
never increments usageCount), denies with QuotaExceeded exactly when
usageCount has reached usageLimit, and allows exactly otherwise. -/
theorem checkSubscription_quota_gate (now : Int) (st : List User) (user : User)
    (hfree : user.subscription.status = "free") :
    (checkSubscription now st user).1 = st
    ∧ ((checkSubscription now st user).2 = GuardResult.denyQuotaExceeded
        ↔ user.usageLimit ≤ user.usageCount)
    ∧ ((checkSubscription now st user).2 = GuardResult.allow
        ↔ user.usageCount < user.usageLimit) := by
  have hnotpaid : ¬((user.subscription.status = "basic"
      ∨ user.subscription.status = "premium") ∧ dateBefore user.subscription.endDate now) := by
    rw [hfree]
    simp
  unfold checkSubscription
  by_cases h : user.usageLimit ≤ user.usageCount
  · rw [if_pos ⟨hfree, h⟩]
    simpa using h
  · rw [if_neg (by simp [hfree, h]), if_neg hnotpaid]
    simp [h, Nat.lt_of_not_le h]

/-- C6 witness: usageCount 5 of limit 5 denies with QuotaExceeded and usage
count 4 of limit 5 allows, both without touching the store. -/
theorem checkSubscription_quota_gate_witness :
    (checkSubscription 0 [freeUserAtLimit] freeUserAtLimit).1 = [freeUserAtLimit]
    ∧ (checkSubscription 0 [freeUserAtLimit] freeUserAtLimit).2 =
        GuardResult.denyQuotaExceeded
    ∧ (checkSubscription 0 [freeUserUnderLimit] freeUserUnderLimit).1 =
        [freeUserUnderLimit]
    ∧ (checkSubscription 0 [freeUserUnderLimit] freeUserUnderLimit).2 =
        GuardResult.allow :=
  ⟨(checkSubscription_quota_gate 0 [freeUserAtLimit] freeUserAtLimit (by decide)).1,
   (checkSubscription_quota_gate 0 [freeUserAtLimit] freeUserAtLimit (by decide)).2.1.mpr
     (by decide),
   (checkSubscription_quota_gate 0 [freeUserUnderLimit] freeUserUnderLimit (by decide)).1,
   (checkSubscription_quota_gate 0 [freeUserUnderLimit] freeUserUnderLimit (by decide)).2.2.mpr
     (by decide)⟩

/-! C7: the completed-payment webhook and the pending-payment slot. -/

/-- C7 failing input, evaluated: (a) after create-order stages order ORD7 with
plan premium in payment.pendingPlanId, a verified completed webhook for ORD7
finds no user at all — the lookup runs on subscription.orderId, which the
order-creation flow never writes — so the subscription stays free and nothing
is applied; (b) even for a document that does carry ORD7 in
subscription.orderId, the handler reads the plan from
subscription.pendingPlanId (a key the schema does not declare and no code path
writes) and therefore applies basic/50, ignoring the premium plan recorded in
the pending-payment slot payment.pendingPlanId. -/
theorem webhook_completed_ignores_payment_slot :
    (findById afterCreateOrder7 "u7").map User.payment =
      some { pendingOrderId := some "ORD7", pendingPlanId := some "premium" }
    ∧ findOneBySubscriptionOrderId afterCreateOrder7 "ORD7" = none
    ∧ webhookRoute 0 afterCreateOrder7 (Except.ok "SUCCESS")
        { eventType := "PAYMENT.CAPTURE.COMPLETED", orderId := "ORD7",
          payerId := "P7" } =
      (afterCreateOrder7, WebhookResp.received)
    ∧ (findById afterCreateOrder7 "u7").map (fun u => u.subscription.status) =
      some "free"
    ∧ linkedOrderUser7.payment.pendingPlanId = some "premium"
    ∧ (findById (webhookRoute 0 [linkedOrderUser7] (Except.ok "SUCCESS")
          { eventType := "PAYMENT.CAPTURE.COMPLETED", orderId := "ORD7",
            payerId := "P7" }).1 "u7b").map
        (fun u => (u.subscription.status, u.subscription.planId, u.usageLimit)) =
      some ("basic", some "basic", 50)
    ∧ ("basic" : String) ≠ "premium" := by
  decide

/-! C8: capture-path quotas versus the Plan Catalog. -/

/-- C8 failing input, evaluated: the capture-path plan application writes
usageLimit 200 for premium while the Plan Catalog assigns 9999, and an unknown
plan id is not rejected — the capture completes and the fallback quota 10 is
written. -/
theorem capture_quota_diverges_from_catalog :
    (handleCompletedPayment 0 (some "premium") pendingBogusUser).usageLimit = 200
    ∧ planUsageLimit "premium" = some 9999
    ∧ (200 : Nat) ≠ 9999
    ∧ (handleCompletedPayment 0 (some "bogus") pendingBogusUser).usageLimit = 10
    ∧ planUsageLimit "bogus" = none
    ∧ captureOrderRoute 0 [pendingBogusUser] "u8" (some "O8")
        (fun _ => { status := "COMPLETED" }) =
      (updateById [pendingBogusUser] "u8" (handleCompletedPayment 0 (some "bogus")),
       CaptureResp.completed (some "bogus")) := by
  decide

/-! C9: the denied/refunded webhook revert. -/

/-- C9 counterexample: an Active premium user with a pending order "O2" in the
payment subdocument is reverted by a verified refund webhook, but the
pending-payment slot is left holding "O2" — it is not cleared as the claim
states. -/
theorem webhook_refund_leaves_pending_slot :
    (findById (webhookRoute 0 [refundedPremiumUser] (Except.ok "SUCCESS")
        { eventType := "PAYMENT.CAPTURE.REFUNDED", orderId := "O9",
          payerId := "PX" }).1 "u9").map User.payment =
      some { pendingOrderId := some "O2", pendingPlanId := some "basic" }
    ∧ (some "O2" : Option String) ≠ none := by
  decide

/-- C9 (amended): a verified PAYMENT.CAPTURE.REFUNDED or .DENIED webhook whose
order reference finds an Active-premium user reverts that user to free —
subscription replaced with status free, planId free, customerId preserved,
orderId and both dates nulled, usageLimit reset to the free-tier quota 5 — and
a subsequent subscription view shows status free with usageLimit 5; the
pending-payment slot (payment.pendingOrderId / pendingPlanId) and usageCount
are left unchanged. -/
theorem webhook_refund_reverts_to_free (now now2 : Int) (st : List User)
    (user : User) (vr : Except String String) (ev : WebhookEvent)
    (hfind : findOneBySubscriptionOrderId st ev.orderId = some user)
    (hid : findById st user.id = some user)
    (_hstatus : user.subscription.status = "premium")
    (htype : ev.eventType = "PAYMENT.CAPTURE.REFUNDED"
        ∨ ev.eventType = "PAYMENT.CAPTURE.DENIED")
    (hvr : verifyWebhookSignature vr = true) :
    webhookRoute now st vr ev =
      (updateById st user.id fun u =>
        { u with
          subscription := { status := "free", planId := some "free",
                            customerId := user.subscription.customerId,
                            orderId := none, pendingPlanId := none,
                            startDate := none, endDate := none,
                            isActive := false },
          usageLimit := 5 },
       WebhookResp.received)
    ∧ (subscriptionRoute now2 (webhookRoute now st vr ev).1 user.id).2 =
        SubResp.ok { status := "free", planId := some "free", startDate := none,
                     endDate := none, isActive := false, daysRemaining := none,
                     usageLimit := 5, usageCount := user.usageCount } := by
  have hC : ¬ev.eventType = "PAYMENT.CAPTURE.COMPLETED" := by
    rcases htype with h | h <;> rw [h] <;> decide
  have hW : webhookRoute now st vr ev =
      (handlePaymentDeniedOrRefunded st ev, WebhookResp.received) := by
    unfold webhookRoute
    rw [if_neg (by simp [hvr]), if_neg hC, if_pos htype.symm]
  have hH : handlePaymentDeniedOrRefunded st ev =
      updateById st user.id fun u =>
        { u with
          subscription := { status := "free", planId := some "free",
                            customerId := user.subscription.customerId,
                            orderId := none, pendingPlanId := none,
                            startDate := none, endDate := none,
                            isActive := false },
          usageLimit := 5 } := by
    unfold handlePaymentDeniedOrRefunded
    rw [hfind]
  have hfind2 : findById (updateById st user.id fun u =>
      { u with
        subscription := { status := "free", planId := some "free",
                          customerId := user.subscription.customerId,
                          orderId := none, pendingPlanId := none,
                          startDate := none, endDate := none,
                          isActive := false },
        usageLimit := 5 }) user.id =
      some { user with
             subscription := { status := "free", planId := some "free",
                               customerId := user.subscription.customerId,
                               orderId := none, pendingPlanId := none,
                               startDate := none, endDate := none,
                               isActive := false },
             usageLimit := 5 } := by
    rw [findById_updateById st user.id
      (fun u =>
        { u with
          subscription := { status := "free", planId := some "free",
                            customerId := user.subscription.customerId,
                            orderId := none, pendingPlanId := none,
                            startDate := none, endDate := none,
                            isActive := false },
          usageLimit := 5 })
      (fun _ => rfl), hid]
    rfl
  refine ⟨by rw [hW, hH], ?_⟩
  rw [hW]
  simp only [hH]
  simp [subscriptionRoute, hfind2, dateBefore, viewOf]

/-- C9 witness: the concrete Active-premium user reverted by a refund webhook
for order O9; the later subscription view reads status free with the free
quota. -/
theorem webhook_refund_reverts_to_free_witness :
    (subscriptionRoute 1 (webhookRoute 0 [refundedPremiumUser] (Except.ok "SUCCESS")
        { eventType := "PAYMENT.CAPTURE.REFUNDED", orderId := "O9",
          payerId := "PX" }).1 "u9").2 =
      SubResp.ok { status := "free", planId := some "free", startDate := none,
                   endDate := none, isActive := false, daysRemaining := none,
                   usageLimit := 5, usageCount := 3 } := by
  have h := webhook_refund_reverts_to_free 0 1 [refundedPremiumUser]
    refundedPremiumUser (Except.ok "SUCCESS")
    { eventType := "PAYMENT.CAPTURE.REFUNDED", orderId := "O9", payerId := "PX" }
    (by decide) (by decide) (by decide) (Or.inl rfl) (by decide)
  simpa [refundedPremiumUser] using h.2

/-! C10: test-gemini bypasses the entitlement guard; generate is gated and
counts usage. -/

/-- The test-gemini route never writes: the store and the saved-content list
come back unchanged on every path, whatever the user's quota state. -/
theorem testGeminiRoute_preserves (st : List User) (contents : List Content)
    (uid : String) (prompt contentType : Option String)
    (gen : Except String String) :
    (testGeminiRoute st contents uid prompt contentType gen).1 = st
    ∧ (testGeminiRoute st contents uid prompt contentType gen).2.1 = contents := by
  cases hfid : findById st uid with
  | none => simp [testGeminiRoute, hfid]
  | some u =>
    cases prompt with
    | none => simp [testGeminiRoute, hfid]
    | some p =>
      by_cases hp : p = ""
      · simp [testGeminiRoute, hfid, hp]
      · cases gen with
        | error msg => simp [testGeminiRoute, hfid, hp]
        | ok text => simp [testGeminiRoute, hfid, hp]

/-- C10: the test-gemini route leaves the store (hence usageCount and all
subscription state) and the content list unchanged and still returns the
generated text, with no entitlement-guard consultation anywhere in its
definition; the generate route is gated by the guard (an over-quota free user
gets the limit rejection with nothing changed), increments usageCount by
exactly one when generation and save succeed, and changes nothing when they
fail. -/
theorem testGemini_ungated_generate_gated (now : Int) (st : List User)
    (contents : List Content) (uid : String) (prompt contentType : Option String)
    (db : Bool) (gen : Except String String) (user : User)
    (hu : findById st uid = some user) :
    ((testGeminiRoute st contents uid prompt contentType gen).1 = st
      ∧ (testGeminiRoute st contents uid prompt contentType gen).2.1 = contents)
    ∧ (∀ p text, prompt = some p → p ≠ "" → gen = Except.ok text →
        (testGeminiRoute st contents uid prompt contentType gen).2.2 =
          TestGeminiResp.ok text (jsOrDefault contentType "other"))
    ∧ (user.subscription.status = "free" → user.usageLimit ≤ user.usageCount →
        generateRoute now st contents uid prompt contentType db gen =
          (st, contents, GenerateResp.limitReached))
    ∧ (∀ p text, (checkSubscription now st user).2 = GuardResult.allow →
        prompt = some p → p ≠ "" → db = true → gen = Except.ok text →
        generateRoute now st contents uid prompt contentType db gen =
          (updateById st uid fun u => { u with usageCount := u.usageCount + 1 },
           contents ++ [{ user := uid, prompt := p, generatedContent := text,
                          contentType := jsOrDefault contentType "other" }],
           GenerateResp.ok { user := uid, prompt := p, generatedContent := text,
                             contentType := jsOrDefault contentType "other" }))
    ∧ (∀ msg, (checkSubscription now st user).2 = GuardResult.allow →
        gen = Except.error msg →
        (generateRoute now st contents uid prompt contentType db gen).1 = st
        ∧ (generateRoute now st contents uid prompt contentType db gen).2.1 =
            contents) := by
  refine ⟨testGeminiRoute_preserves st contents uid prompt contentType gen,
    ?_, ?_, ?_, ?_⟩
  · intro p text hp hpne hgen
    simp [testGeminiRoute, hu, hp, hpne, hgen]
  · intro hfree hle
    have hg : checkSubscription now st user = (st, GuardResult.denyQuotaExceeded) := by
      unfold checkSubscription
      rw [if_pos ⟨hfree, hle⟩]
    simp [generateRoute, hu, hg]
  · intro p text hallow hp hpne hdb hgen
    have hg := checkSubscription_allow_of now st user hallow
    simp [generateRoute, hu, hg, hp, hpne, hdb, hgen]
  · intro msg hallow hgen
    have hg := checkSubscription_allow_of now st user hallow
    cases prompt with
    | none => simp [generateRoute, hu, hg]
    | some p =>
      by_cases hp : p = ""
      · simp [generateRoute, hu, hg, hp]
      · cases db <;> simp [generateRoute, hu, hg, hp, hgen]

/-- C10 witness: the over-quota free user is served by test-gemini with
nothing changed but rejected by generate; the under-quota user generates and
gets usageCount incremented by one with the content saved. -/
theorem testGemini_ungated_generate_gated_witness :
    ((testGeminiRoute [genOverUser] [] "u10" (some "hi") none (Except.ok "text")).1 =
        [genOverUser]
      ∧ (testGeminiRoute [genOverUser] [] "u10" (some "hi") none
          (Except.ok "text")).2.1 = ([] : List Content))
    ∧ generateRoute 0 [genOverUser] [] "u10" (some "hi") none true (Except.ok "text") =
        ([genOverUser], [], GenerateResp.limitReached)
    ∧ generateRoute 0 [genUnderUser] [] "u10b" (some "hi") none true (Except.ok "text") =
        ([{ genUnderUser with usageCount := 5 }],
         [{ user := "u10b", prompt := "hi", generatedContent := "text",
            contentType := "other" }],
         GenerateResp.ok { user := "u10b", prompt := "hi", generatedContent := "text",
                           contentType := "other" }) := by
  have hover := testGemini_ungated_generate_gated 0 [genOverUser] [] "u10"
    (some "hi") none true (Except.ok "text") genOverUser (by decide)
  have hunder := testGemini_ungated_generate_gated 0 [genUnderUser] [] "u10b"
    (some "hi") none true (Except.ok "text") genUnderUser (by decide)
  refine ⟨hover.1, hover.2.2.1 (by decide) (by decide), ?_⟩
  have h := hunder.2.2.2.1 "hi" "text" (by decide) rfl (by decide) rfl rfl
  rw [h]
  decide

end AiContentGen
